import Mathlib

/-!
Shallow embedding of the client-side voice capture and transcription
subsystem: the VoiceRecorder class and convertBlobToBase64 helper
(src/utils/VoiceRecorder.ts), the ClientSpeechRecognition class
(src/utils/SpeechRecognition.ts), and the response-handling branch of
MicrophoneButton.handleStopRecording (ClientMicrophoneButton.tsx).

Blobs are modelled as byte lists; device and runtime behaviour
(getUserMedia grants, MediaRecorder.isTypeSupported answers, which
callback fires first after a stop request) enter as explicit parameters,
since the code is single-threaded and each promise settles on the first
callback or timer that fires.
-/

/-- A media track of the acquired microphone stream. -/
structure MediaTrack where
  id : Nat
  label : String
deriving DecidableEq, Repr

/-- A microphone stream as handed out by getUserMedia: a bag of tracks. -/
structure MediaStream where
  tracks : List MediaTrack
deriving DecidableEq, Repr

/-- The MediaRecorder handle, with its `state` string (the code compares it
against the string literal "recording") and negotiated `mimeType`. -/
structure MediaRecorderH where
  state : String
  mimeType : String
deriving DecidableEq, Repr

/-- The three private fields of the VoiceRecorder class:
`mediaRecorder`, `audioChunks`, `stream`. A chunk is a byte list. -/
structure RecorderState where
  mediaRecorder : Option MediaRecorderH
  audioChunks : List (List Nat)
  stream : Option MediaStream
deriving DecidableEq, Repr

/-- The finalized audio object built in the onstop handler:
`new Blob(this.audioChunks, { type: ... })`. -/
structure CapturedAudio where
  bytes : List Nat
  mime : String
deriving DecidableEq, Repr

/-- VoiceRecorder.cleanup: stops every track of the held stream, then nulls
the stream, nulls the recorder reference and empties the chunk array.
Returns the new state together with the list of tracks it stopped
(the effect log of `track.stop()` calls). -/
def cleanup (s : RecorderState) : RecorderState × List MediaTrack :=
  match s.stream with
  | some st => (⟨none, [], none⟩, st.tracks)
  | none => (⟨none, [], none⟩, [])

/-- VoiceRecorder.isRecording: `this.mediaRecorder?.state === 'recording'`. -/
def isRecording (s : RecorderState) : Bool :=
  match s.mediaRecorder with
  | some mr => mr.state == "recording"
  | none => false

/-- Outcome of `await navigator.mediaDevices.getUserMedia(...)`: either a
fresh stream, or a rejection carrying an error name and message. -/
inductive UserMediaResult where
  | granted (stream : MediaStream)
  | denied (name : String) (message : String)

/-- The runtime/device behaviour a call to startRecording runs against. -/
structure Device where
  userMedia : UserMediaResult
  isTypeSupported : String → Bool

/-- The MIME type preference list hard-coded in startRecording. -/
def mimeTypes : List String :=
  ["audio/webm;codecs=opus", "audio/webm", "audio/mp4", "audio/mpeg", "audio/wav"]

/-- The selection loop of startRecording: `selectedMimeType` starts as the
empty string and the loop takes the first candidate the runtime supports. -/
def selectMime : List String → (String → Bool) → String
  | [], _ => ""
  | m :: rest, sup => if sup m then m else selectMime rest sup

/-- Modelled from the wording of the specification, for comparison with the
selection loop of the source: the first supported candidate of the
preference list, in order, if any. -/
def firstSupported : List String → (String → Bool) → Option String
  | [], _ => none
  | m :: rest, sup => if sup m then some m else firstSupported rest sup

/-- The error-classification branch of the catch block of startRecording. -/
def classifyStartError (name message : String) : String :=
  if name = "NotAllowedError" then
    "Microphone access denied. Please allow microphone permissions in your browser settings and try again."
  else if name = "NotFoundError" then
    "No microphone found. Please connect a microphone and try again."
  else if name = "NotReadableError" then
    "Microphone is already in use by another application. Please close other applications using the microphone and try again."
  else if name = "OverconstrainedError" then
    "Microphone does not support the required audio format. Please try with a different microphone."
  else
    "Failed to access microphone: " ++ message

/-- Everything observable about one call to startRecording: the settled
promise, the fields afterwards, whether a stream was acquired from
getUserMedia, whether a MediaRecorder was constructed, and which tracks
were stopped (by the cleanup call of the catch block, if it ran). -/
structure StartTrace where
  result : Except String Unit
  state : RecorderState
  streamAcquired : Bool
  recorderCreated : Bool
  tracksStopped : List MediaTrack

/-- VoiceRecorder.startRecording. The source first awaits getUserMedia and
assigns `this.stream` (so on a grant the stream is acquired before any
format negotiation), then walks the MIME preference list, throws if no
candidate is supported, otherwise constructs the MediaRecorder with the
selected type, resets the chunk array and starts it (state "recording").
Any throw lands in the catch block, which calls cleanup and rethrows a
classified error. There is no guard against an already active session:
a second call simply overwrites the fields. -/
def startRecording (dev : Device) (s : RecorderState) : StartTrace :=
  match dev.userMedia with
  | .denied name message =>
    -- the assignment to this.stream did not happen; catch runs cleanup
    -- on the previous fields and rethrows the classified error
    let (s1, ts) := cleanup s
    ⟨.error (classifyStartError name message), s1, false, false, ts⟩
  | .granted st =>
    let sAcq : RecorderState := { s with stream := some st }
    let selected := selectMime mimeTypes dev.isTypeSupported
    if selected = "" then
      -- throw new Error('No supported audio format found on this device')
      -- lands in the catch block: cleanup, then the generic rethrow branch
      let (s1, ts) := cleanup sAcq
      ⟨.error (classifyStartError "Error" "No supported audio format found on this device"),
        s1, true, false, ts⟩
    else
      ⟨.ok (), ⟨some ⟨"recording", selected⟩, [], some st⟩, true, true, []⟩

/-- The ondataavailable handler installed by startRecording: pushes the
event data onto `audioChunks` only when its size is positive. -/
def ondataavailable (s : RecorderState) (data : List Nat) : RecorderState :=
  if 0 < data.length then { s with audioChunks := s.audioChunks ++ [data] } else s

/-- A sequence of ondataavailable callbacks in arrival order. -/
def feedChunks (s : RecorderState) (cs : List (List Nat)) : RecorderState :=
  cs.foldl ondataavailable s

/-- The onerror handler installed by startRecording (the handler live while
the session is Recording, before stopRecording replaces it). Its entire
body is a throw from inside the event callback: it does not call cleanup
and does not touch any field, and the thrown error escapes the event loop
uncaught. The components are: the message of the uncaught error, the state
after the handler, and the tracks it stopped. -/
def onRecordingError (s : RecorderState) (errMessage : Option String) :
    String × RecorderState × List MediaTrack :=
  (("Recording failed: " ++ match errMessage with
     | some m => m
     | none => "undefined"), s, [])

/-- The 5000 ms budget of `setTimeout` in stopRecording. -/
def stopTimeoutMs : Nat := 5000

/-- Which callback settles the stop promise first, once stop is requested:
the onstop handler, the onerror handler (with its error message, possibly
absent), or neither within the 5 second budget, in which case the timer
fires. The code is single-threaded, so exactly one of these wins. -/
inductive FinalizeEvent where
  | stopped
  | errored (message : Option String)
  | never

/-- How the promise returned by stopRecording settles. -/
inductive StopOutcome where
  | resolved (audio : CapturedAudio)
  | rejected (message : String)
deriving DecidableEq, Repr

/-- Everything observable about one call to stopRecording: the settled
promise, the fields afterwards, and the tracks stopped by cleanup. -/
structure StopTrace where
  outcome : StopOutcome
  state : RecorderState
  tracksStopped : List MediaTrack

/-- `event.error?.message || 'Unknown error'` of the onerror handler
installed by stopRecording: an absent or empty message falls back. -/
def stopErrorMessage (message : Option String) : String :=
  match message with
  | some m => if m = "" then "Unknown error" else m
  | none => "Unknown error"

/-- VoiceRecorder.stopRecording. With no recorder the promise rejects at
once. Otherwise, when the recorder state is "recording", stop is requested
and the promise settles on the first of: the 5 s timer (cleanup, reject
with the timeout message), the onerror handler (cleanup, reject), or the
onstop handler, which rejects when the chunk array is empty, builds the
blob from the chunks and the recorder MIME type (falling back to
audio/webm for an empty type string), rejects when that blob has size
zero, and resolves with it otherwise — running cleanup on each of those
paths. When the recorder is not in the "recording" state the promise
rejects after cleanup. -/
def stopRecording (s : RecorderState) (ev : FinalizeEvent) : StopTrace :=
  match s.mediaRecorder with
  | none => ⟨.rejected "No recording in progress", s, []⟩
  | some mr =>
    if mr.state = "recording" then
      match ev with
      | .never =>
        let (s1, ts) := cleanup s
        ⟨.rejected "Recording stop timeout - please try again", s1, ts⟩
      | .errored message =>
        let (s1, ts) := cleanup s
        ⟨.rejected ("Recording failed: " ++ stopErrorMessage message), s1, ts⟩
      | .stopped =>
        if s.audioChunks.length = 0 then
          let (s1, ts) := cleanup s
          ⟨.rejected "No audio data recorded. Please try speaking louder or check your microphone.", s1, ts⟩
        else
          let audioBlob : CapturedAudio :=
            ⟨s.audioChunks.flatten, if mr.mimeType = "" then "audio/webm" else mr.mimeType⟩
          if audioBlob.bytes.length = 0 then
            let (s1, ts) := cleanup s
            ⟨.rejected "Empty audio recording. Please try again.", s1, ts⟩
          else
            let (s1, ts) := cleanup s
            ⟨.resolved audioBlob, s1, ts⟩
    else
      let (s1, ts) := cleanup s
      ⟨.rejected "Recording is not active", s1, ts⟩

/-- The 10000 ms budget of `setTimeout` in convertBlobToBase64. -/
def encodeTimeoutMs : Nat := 10000

/-- Which FileReader callback settles the conversion promise first: loadend
with `reader.result` (absent models a null result), the error handler, or
neither within the 10 second budget, in which case the timer fires. -/
inductive ReaderEvent where
  | loadend (result : Option String)
  | failed
  | never

/-- How the promise returned by convertBlobToBase64 settles. -/
inductive ConvertOutcome where
  | resolved (base64 : String)
  | rejected (message : String)
deriving DecidableEq, Repr

/-- One call to convertBlobToBase64: the settled promise and whether the
FileReader conversion primitive was ever constructed and started. -/
structure ConvertTrace where
  outcome : ConvertOutcome
  readerInvoked : Bool
deriving DecidableEq, Repr

/-- convertBlobToBase64 (src/utils/VoiceRecorder.ts). A blob of size zero
is rejected at once, before the FileReader is created. Otherwise the
reader is started and the promise settles on the first of: the 10 s timer
(reject with the timeout message), the error handler, or loadend, which
rejects on a null or empty result string, splits the data URL on commas,
rejects when the element at index 1 is absent or empty, and resolves with
that element otherwise. -/
def convertBlobToBase64 (size : Nat) (ev : ReaderEvent) : ConvertTrace :=
  if size = 0 then ⟨.rejected "Cannot convert empty blob to base64", false⟩
  else
    match ev with
    | .never => ⟨.rejected "Conversion timeout - please try again", true⟩
    | .failed => ⟨.rejected "Failed to convert audio to base64", true⟩
    | .loadend result =>
      match result with
      | none => ⟨.rejected "Failed to convert audio to base64", true⟩
      | some base64String =>
        if base64String = "" then ⟨.rejected "Failed to convert audio to base64", true⟩
        else
          match (base64String.splitOn ",").get? 1 with
          | none => ⟨.rejected "Invalid base64 data", true⟩
          | some content =>
            if content = "" then ⟨.rejected "Invalid base64 data", true⟩
            else ⟨.resolved content, true⟩

/-- The encode-then-send section of MicrophoneButton.handleStopRecording:
`await convertBlobToBase64(audioBlob)` followed by the fetch call to the
speech-to-text endpoint. A rejection of the conversion propagates to the
surrounding catch block, so the fetch is skipped. The Boolean records
whether the remote transport (fetch) was invoked. -/
def transcriptionPipeline (size : Nat) (ev : ReaderEvent) : Bool × ConvertOutcome :=
  match convertBlobToBase64 size ev with
  | ⟨.rejected m, _⟩ => (false, .rejected m)
  | ⟨.resolved b, _⟩ => (true, .resolved b)

/-- The trim method of JS strings, as used by the source: removes leading
and trailing whitespace. Implemented over the character list so that it
reduces by computation. -/
def jsTrim (s : String) : String :=
  ⟨((s.data.dropWhile Char.isWhitespace).reverse.dropWhile Char.isWhitespace).reverse⟩

/-- One entry of the recognizer result stream: the transcript of its first
alternative and its isFinal flag. -/
structure SpeechRes where
  transcript : String
  isFinal : Bool
deriving DecidableEq, Repr

/-- The accumulation performed by the onresult handler of
ClientSpeechRecognition.startListening: `finalTranscript` starts empty and
each result flagged final appends its transcript; interim results are
skipped. -/
def accumulateFinal (results : List SpeechRes) : String :=
  results.foldl (fun acc r => if r.isFinal then acc ++ r.transcript else acc) ""

/-- How the listening phase ends: the onend callback (normal end of
listening) or the onerror callback with its error code. -/
inductive RecogEnd where
  | ended
  | errored (code : String)

/-- The switch statement of the onerror handler of startListening. -/
def classifyRecogError (code : String) : String :=
  if code = "no-speech" then "No speech detected. Please try again."
  else if code = "audio-capture" then "Microphone not accessible. Please check permissions."
  else if code = "not-allowed" then "Microphone permission denied. Please allow microphone access."
  else if code = "network" then "Network error occurred during speech recognition."
  else if code = "service-not-allowed" then "Speech recognition service not allowed."
  else "Speech recognition error: " ++ code

/-- How the promise returned by startListening settles. -/
inductive ListenOutcome where
  | resolved (transcript : String)
  | rejected (message : String)
deriving DecidableEq, Repr

/-- ClientSpeechRecognition.startListening, given the result stream the
recognizer delivers and how listening ends. On a normal end the promise
resolves with the trimmed accumulated transcript when that trim is
non-empty, and rejects with the no-speech message otherwise; on a
recognizer error it rejects with the classified message. -/
def startListening (results : List SpeechRes) (ending : RecogEnd) : ListenOutcome :=
  let finalTranscript := accumulateFinal results
  match ending with
  | .errored code => .rejected (classifyRecogError code)
  | .ended =>
    if jsTrim finalTranscript ≠ "" then .resolved (jsTrim finalTranscript)
    else .rejected "No speech detected"

/-- What MicrophoneButton.handleStopRecording does with the parsed response
of the speech-to-text call: deliver a transcript to onTranscription, show
the no-speech toast, or show a failure toast. -/
inductive TranscriptDelivery where
  | delivered (transcript : String)
  | noSpeech
  | serverFailed (description : String)
deriving DecidableEq, Repr

/-- Whether one string occurs inside another, as `String.includes` of the
source; splitting on a non-empty pattern yields more than one piece
exactly when the pattern occurs. -/
def stringIncludes (s pat : String) : Bool :=
  1 < (s.splitOn pat).length

/-- The description of the failure toast when `response.ok` is false:
the configuration message when `data.error` mentions the missing OpenAI
key, otherwise `data.error || 'Failed to process audio. Please try again.'`. -/
def speechToTextFailureDescription (errMessage : Option String) : String :=
  match errMessage with
  | some e =>
    if stringIncludes e "OpenAI API key not configured" then
      "OpenAI API key needs to be configured for speech-to-text feature."
    else if e = "" then "Failed to process audio. Please try again."
    else e
  | none => "Failed to process audio. Please try again."

/-- The response-handling branch of MicrophoneButton.handleStopRecording:
on a non-ok response a failure toast is shown; on an ok response the
transcript is delivered as `data.text.trim()` only when `data.text` is
present, non-empty and non-blank after trimming (the truthiness tests of
`data?.text && data.text.trim()`), and the no-speech toast is shown
otherwise. -/
def handleTranscriptionResponse (ok : Bool) (text : Option String)
    (errMessage : Option String) : TranscriptDelivery :=
  if ok then
    match text with
    | none => .noSpeech
    | some t =>
      if t = "" then .noSpeech
      else if jsTrim t = "" then .noSpeech
      else .delivered (jsTrim t)
  else .serverFailed (speechToTextFailureDescription errMessage)

/-- A concrete microphone track. -/
def track0 : MediaTrack := ⟨0, "Built-in Microphone"⟩

/-- A concrete stream held by an active session. -/
def oldStream : MediaStream := ⟨[track0]⟩

/-- A concrete stream granted by a later getUserMedia call. -/
def freshStream : MediaStream := ⟨[⟨1, "Built-in Microphone"⟩]⟩

/-- A concrete session that is Recording: live recorder, one collected
chunk, held stream. -/
def recordingState : RecorderState :=
  ⟨some ⟨"recording", "audio/webm"⟩, [[7, 7]], some oldStream⟩

/-- A concrete idle session: all fields at their initial values. -/
def idleState : RecorderState := ⟨none, [], none⟩

/-- A device that grants a fresh stream and supports every candidate. -/
def grantingDevice : Device :=
  ⟨.granted freshStream, fun _ => true⟩

/-- A device that grants a stream but supports no encoding candidate. -/
def unsupportiveDevice : Device :=
  ⟨.granted freshStream, fun _ => false⟩

/-- A concrete session that is Recording but has collected no chunks yet. -/
def emptyChunksState : RecorderState :=
  ⟨some ⟨"recording", "audio/webm"⟩, [], some oldStream⟩

theorem selectMime_eq_firstSupported (l : List String) (sup : String → Bool) :
    selectMime l sup = (firstSupported l sup).getD "" := by
  induction l with
  | nil => rfl
  | cons m rest ih =>
    cases h : sup m <;> simp [selectMime, firstSupported, h, ih]

theorem firstSupported_eq_none_iff (l : List String) (sup : String → Bool) :
    firstSupported l sup = none ↔ ∀ m ∈ l, sup m = false := by
  induction l with
  | nil => simp [firstSupported]
  | cons m rest ih =>
    cases h : sup m <;> simp [firstSupported, h, ih]

theorem firstSupported_mem (l : List String) (sup : String → Bool) (m : String)
    (h : firstSupported l sup = some m) : m ∈ l ∧ sup m = true := by
  induction l with
  | nil => simp [firstSupported] at h
  | cons x rest ih =>
    cases hx : sup x
    · rw [firstSupported, hx] at h
      simp only [Bool.false_eq_true, if_false] at h
      have := ih h
      exact ⟨List.mem_cons_of_mem _ this.1, this.2⟩
    · rw [firstSupported, hx] at h
      simp only [if_true] at h
      cases h
      exact ⟨List.mem_cons_self _ _, hx⟩

theorem mem_mimeTypes_ne_empty (m : String) (h : m ∈ mimeTypes) : m ≠ "" := by
  simp only [mimeTypes, List.mem_cons, List.not_mem_nil, or_false] at h
  rcases h with rfl | rfl | rfl | rfl | rfl <;> decide

theorem feedChunks_spec (cs : List (List Nat)) (s : RecorderState) :
    feedChunks s cs =
      { s with audioChunks :=
          s.audioChunks ++ cs.filter (fun c => decide (0 < c.length)) } := by
  induction cs generalizing s with
  | nil => simp [feedChunks]
  | cons c rest ih =>
    have hstep : feedChunks s (c :: rest) = feedChunks (ondataavailable s c) rest := rfl
    rw [hstep, ih]
    by_cases hc : 0 < c.length
    · simp [ondataavailable, hc, List.filter_cons]
    · simp [ondataavailable, hc, List.filter_cons]

theorem flatten_filter_pos (cs : List (List Nat)) :
    (cs.filter (fun c => decide (0 < c.length))).flatten = cs.flatten := by
  induction cs with
  | nil => rfl
  | cons c rest ih =>
    by_cases hc : 0 < c.length
    · simp [List.filter_cons, hc, ih]
    · have hlen : c.length = 0 := by omega
      have hnil : c = [] := List.eq_nil_of_length_eq_zero hlen
      subst hnil
      simp [List.filter_cons, ih]

theorem foldl_final_all_interim (results : List SpeechRes) (acc : String)
    (h : ∀ r ∈ results, r.isFinal = false) :
    results.foldl (fun a r => if r.isFinal then a ++ r.transcript else a) acc = acc := by
  induction results generalizing acc with
  | nil => rfl
  | cons r rest ih =>
    have hr : r.isFinal = false := h r (List.mem_cons_self _ _)
    simp only [List.foldl_cons, hr, Bool.false_eq_true, if_false]
    exact ih acc (fun x hx => h x (List.mem_cons_of_mem _ hx))

theorem foldl_final_filter (results : List SpeechRes) (acc : String) :
    results.foldl (fun a r => if r.isFinal then a ++ r.transcript else a) acc =
      (results.filter (fun r => r.isFinal)).foldl
        (fun a r => if r.isFinal then a ++ r.transcript else a) acc := by
  induction results generalizing acc with
  | nil => rfl
  | cons r rest ih =>
    cases hr : r.isFinal <;> simp [List.filter_cons, hr, ih]

/-- Claim C1, counterexample. A session whose recorder state is
"recording" does not make a second startRecording call fail: against a
granting, fully supporting device the call succeeds, resets the chunk
sequence of the existing session (which held a chunk) and stops none of
the tracks of the previously held stream. -/
theorem guard_law_counterexample :
    isRecording recordingState = true ∧
    (startRecording grantingDevice recordingState).result = .ok () ∧
    (startRecording grantingDevice recordingState).state.audioChunks = [] ∧
    recordingState.audioChunks ≠ [] ∧
    (startRecording grantingDevice recordingState).state.stream = some freshStream ∧
    (startRecording grantingDevice recordingState).tracksStopped = [] := by
  refine ⟨rfl, rfl, rfl, ?_, rfl, rfl⟩
  decide

/-- Claim C1, amended. Invoking startRecording while the session is
Recording does not fail with an already-active error: whenever the device
grants a stream and supports the most preferred candidate, the call
succeeds, replacing the recorder and stream references and resetting the
chunk sequence, and no track of the previously held stream is stopped. -/
theorem start_while_recording_supersedes (dev : Device) (s : RecorderState)
    (st2 : MediaStream)
    (hrec : isRecording s = true)
    (hg : dev.userMedia = .granted st2)
    (hsup : dev.isTypeSupported "audio/webm;codecs=opus" = true) :
    (startRecording dev s).result = .ok () ∧
    (startRecording dev s).state =
      ⟨some ⟨"recording", "audio/webm;codecs=opus"⟩, [], some st2⟩ ∧
    (startRecording dev s).tracksStopped = [] := by
  have hsel : selectMime mimeTypes dev.isTypeSupported = "audio/webm;codecs=opus" := by
    simp [mimeTypes, selectMime, hsup]
  unfold startRecording
  rw [hg]
  simp only [hsel]
  rw [if_neg (by decide : ¬("audio/webm;codecs=opus" : String) = "")]
  exact ⟨rfl, rfl, rfl⟩

/-- Witness for the amended claim C1 at a concrete Recording session and
granting device. -/
theorem start_while_recording_supersedes_witness :
    (startRecording grantingDevice recordingState).result = .ok () ∧
    (startRecording grantingDevice recordingState).state =
      ⟨some ⟨"recording", "audio/webm;codecs=opus"⟩, [], some freshStream⟩ ∧
    (startRecording grantingDevice recordingState).tracksStopped = [] :=
  start_while_recording_supersedes grantingDevice recordingState freshStream
    (by decide) rfl rfl

/-- Claim C2. The onerror handler live while the session is Recording
(installed by startRecording) does not run the release routine: at a
concrete Recording session it leaves every field untouched — the stream is
still held — and stops no track, while cleanup on the same session would
have stopped the track of the held stream. -/
theorem recording_error_releases_nothing :
    isRecording recordingState = true ∧
    (onRecordingError recordingState (some "Device failure")).2.1 = recordingState ∧
    (onRecordingError recordingState (some "Device failure")).2.2 = [] ∧
    recordingState.stream = some oldStream ∧
    (cleanup recordingState).2 = [track0] :=
  ⟨rfl, rfl, rfl, rfl, rfl⟩

/-- Claim C3, counterexample. Against a device that grants a stream but
supports no encoding candidate, startRecording does acquire the
microphone stream (getUserMedia runs before negotiation), so the part of
the claim stating that no stream is ever acquired fails; the call then
errs without creating a recorder and the acquired stream is released. -/
theorem negotiation_counterexample :
    (startRecording unsupportiveDevice idleState).streamAcquired = true ∧
    (startRecording unsupportiveDevice idleState).recorderCreated = false ∧
    (startRecording unsupportiveDevice idleState).result =
      .error "Failed to access microphone: No supported audio format found on this device" ∧
    (startRecording unsupportiveDevice idleState).state.stream = none ∧
    (startRecording unsupportiveDevice idleState).tracksStopped = freshStream.tracks :=
  ⟨rfl, rfl, rfl, rfl, rfl⟩

/-- Claim C3, amended. On a granting device: when no encoding candidate is
supported (equivalently, every isTypeSupported query on the preference
list answers false), startRecording fails with the no-supported-format
error, never creates a recorder, and the microphone stream — acquired
before negotiation — is released again (stream field null, its tracks
stopped); when some candidate is supported, the call succeeds and the
recorder is created with the first supported candidate in preference
order, selected once before the recorder exists. -/
theorem negotiation_selects_first_supported (dev : Device) (st : MediaStream)
    (s : RecorderState) (hg : dev.userMedia = .granted st) :
    (firstSupported mimeTypes dev.isTypeSupported = none ↔
       ∀ m ∈ mimeTypes, dev.isTypeSupported m = false) ∧
    (firstSupported mimeTypes dev.isTypeSupported = none →
       (startRecording dev s).result =
         .error "Failed to access microphone: No supported audio format found on this device" ∧
       (startRecording dev s).recorderCreated = false ∧
       (startRecording dev s).streamAcquired = true ∧
       (startRecording dev s).state.stream = none ∧
       (startRecording dev s).tracksStopped = st.tracks) ∧
    (∀ m, firstSupported mimeTypes dev.isTypeSupported = some m →
       (startRecording dev s).result = .ok () ∧
       (startRecording dev s).recorderCreated = true ∧
       (startRecording dev s).state.mediaRecorder = some ⟨"recording", m⟩) := by
  refine ⟨firstSupported_eq_none_iff _ _, ?_, ?_⟩
  · intro hnone
    have hsel : selectMime mimeTypes dev.isTypeSupported = "" := by
      rw [selectMime_eq_firstSupported, hnone]; rfl
    unfold startRecording
    rw [hg]
    simp only [hsel, if_pos rfl]
    simp [cleanup, classifyStartError]
  · intro m hm
    have hmem := firstSupported_mem _ _ _ hm
    have hne : m ≠ "" := mem_mimeTypes_ne_empty m hmem.1
    have hsel : selectMime mimeTypes dev.isTypeSupported = m := by
      rw [selectMime_eq_firstSupported, hm]; rfl
    unfold startRecording
    rw [hg]
    simp only [hsel]
    rw [if_neg hne]
    exact ⟨rfl, rfl, rfl⟩

/-- Witness for the amended claim C3: a concrete granting device with zero
supported encodings takes the failure branch, and a concrete fully
supporting device takes the selection branch with the most preferred
candidate. -/
theorem negotiation_selects_first_supported_witness :
    ((startRecording unsupportiveDevice idleState).result =
       .error "Failed to access microphone: No supported audio format found on this device" ∧
     (startRecording unsupportiveDevice idleState).recorderCreated = false ∧
     (startRecording unsupportiveDevice idleState).streamAcquired = true ∧
     (startRecording unsupportiveDevice idleState).state.stream = none ∧
     (startRecording unsupportiveDevice idleState).tracksStopped = freshStream.tracks) ∧
    ((startRecording grantingDevice idleState).result = .ok () ∧
     (startRecording grantingDevice idleState).recorderCreated = true ∧
     (startRecording grantingDevice idleState).state.mediaRecorder =
       some ⟨"recording", "audio/webm;codecs=opus"⟩) :=
  ⟨(negotiation_selects_first_supported unsupportiveDevice freshStream idleState rfl).2.1 rfl,
   (negotiation_selects_first_supported grantingDevice freshStream idleState rfl).2.2
     "audio/webm;codecs=opus" rfl⟩

/-- Claim C4. When stop is requested on a live recorder and the finalize
(onstop) callback never fires, the promise settles anyway: the 5000 ms
timer rejects it with the stop-timeout message, and the release routine
runs, nulling the stream and stopping every track of the held stream. -/
theorem stop_timeout_releases (s : RecorderState) (mr : MediaRecorderH)
    (st : MediaStream)
    (h1 : s.mediaRecorder = some mr) (h2 : mr.state = "recording")
    (h3 : s.stream = some st) :
    (stopRecording s .never).outcome =
      .rejected "Recording stop timeout - please try again" ∧
    (stopRecording s .never).state.stream = none ∧
    (stopRecording s .never).state.mediaRecorder = none ∧
    (stopRecording s .never).tracksStopped = st.tracks ∧
    stopTimeoutMs = 5000 := by
  unfold stopRecording
  rw [h1]
  simp only [h2, if_pos rfl]
  simp [cleanup, h3, stopTimeoutMs]

/-- Witness for claim C4 at a concrete Recording session. -/
theorem stop_timeout_releases_witness :
    (stopRecording recordingState .never).outcome =
      .rejected "Recording stop timeout - please try again" ∧
    (stopRecording recordingState .never).state.stream = none ∧
    (stopRecording recordingState .never).state.mediaRecorder = none ∧
    (stopRecording recordingState .never).tracksStopped = oldStream.tracks ∧
    stopTimeoutMs = 5000 :=
  stop_timeout_releases recordingState ⟨"recording", "audio/webm"⟩ oldStream rfl rfl rfl

/-- Claim C5. On the onstop path of a live recorder, the promise resolves
only when at least one chunk was collected and the concatenation is
non-empty, and then with exactly that concatenation; an empty chunk
sequence rejects with the no-audio-data message, and a non-empty chunk
sequence whose concatenation has size zero rejects with the
empty-recording message — both no-audio failures, even though the
device-level stop succeeded. -/
theorem finalize_requires_audio (s : RecorderState) (mr : MediaRecorderH)
    (h1 : s.mediaRecorder = some mr) (h2 : mr.state = "recording") :
    (∀ a, (stopRecording s .stopped).outcome = .resolved a →
       s.audioChunks ≠ [] ∧ a.bytes = s.audioChunks.flatten ∧ a.bytes.length ≠ 0) ∧
    (s.audioChunks = [] →
       (stopRecording s .stopped).outcome =
         .rejected "No audio data recorded. Please try speaking louder or check your microphone.") ∧
    (s.audioChunks ≠ [] → s.audioChunks.flatten.length = 0 →
       (stopRecording s .stopped).outcome =
         .rejected "Empty audio recording. Please try again.") := by
  unfold stopRecording
  rw [h1]
  simp only [h2, if_pos rfl]
  by_cases hc : s.audioChunks.length = 0
  · have hnil : s.audioChunks = [] := List.eq_nil_of_length_eq_zero hc
    simp [hc, hnil]
  · have hne : s.audioChunks ≠ [] := by
      intro h; exact hc (by simp [h])
    by_cases hf : s.audioChunks.flatten.length = 0
    · simp [hc, hf, hne]
    · simp only [hc, if_neg hc, hf, if_neg hf]
      refine ⟨?_, ?_, ?_⟩
      · intro a ha
        cases ha
        exact ⟨hne, rfl, hf⟩
      · intro h; exact absurd h hne
      · intro _ h; exact h.elim

/-- Witness for claim C5: a Recording session with no collected chunks
rejects with the no-audio-data message. -/
theorem finalize_requires_audio_witness :
    (stopRecording emptyChunksState .stopped).outcome =
      .rejected "No audio data recorded. Please try speaking louder or check your microphone." :=
  (finalize_requires_audio emptyChunksState ⟨"recording", "audio/webm"⟩ rfl rfl).2.1 rfl

/-- Claim C6. Chunks arriving in order c1, c2, c3 on a Recording session
with an empty chunk sequence are appended in arrival order and finalize,
via the onstop path, to audio whose byte sequence is exactly the
concatenation of c1, c2 and c3, provided that concatenation is non-empty
(an all-empty arrival sequence rejects instead of finalizing). -/
theorem chunk_order_preserved (s : RecorderState) (mr : MediaRecorderH)
    (c1 c2 c3 : List Nat)
    (h1 : s.mediaRecorder = some mr) (h2 : mr.state = "recording")
    (h3 : s.audioChunks = []) (h4 : c1 ++ c2 ++ c3 ≠ []) :
    ∃ a, (stopRecording (feedChunks s [c1, c2, c3]) .stopped).outcome = .resolved a ∧
      a.bytes = c1 ++ c2 ++ c3 := by
  have hfeed := feedChunks_spec [c1, c2, c3] s
  have hflat : (feedChunks s [c1, c2, c3]).audioChunks.flatten = c1 ++ c2 ++ c3 := by
    rw [hfeed]
    simp only [h3, List.nil_append]
    rw [flatten_filter_pos]
    simp [List.append_assoc]
  have hmr : (feedChunks s [c1, c2, c3]).mediaRecorder = some mr := by
    rw [hfeed]; exact h1
  have hlen : (feedChunks s [c1, c2, c3]).audioChunks.length ≠ 0 := by
    intro hz
    have : (feedChunks s [c1, c2, c3]).audioChunks = [] :=
      List.eq_nil_of_length_eq_zero hz
    rw [this] at hflat
    exact h4 hflat.symm
  have hfl : (feedChunks s [c1, c2, c3]).audioChunks.flatten.length ≠ 0 := by
    rw [hflat]
    intro hz
    exact h4 (List.eq_nil_of_length_eq_zero hz)
  refine ⟨⟨c1 ++ c2 ++ c3,
    if mr.mimeType = "" then "audio/webm" else mr.mimeType⟩, ?_, rfl⟩
  unfold stopRecording
  rw [hmr]
  simp only [h2, if_pos rfl]
  rw [if_neg hlen, hflat]
  rw [if_neg (fun hz => h4 (List.eq_nil_of_length_eq_zero hz))]
  simp

/-- Witness for claim C6 at three concrete one-byte chunks. -/
theorem chunk_order_preserved_witness :
    ∃ a, (stopRecording (feedChunks emptyChunksState [[1], [2], [3]]) .stopped).outcome =
        .resolved a ∧ a.bytes = [1] ++ [2] ++ [3] :=
  chunk_order_preserved emptyChunksState ⟨"recording", "audio/webm"⟩ [1] [2] [3]
    rfl rfl rfl (by decide)

/-- Claim C7. The release routine is idempotent: a second cleanup on the
state left by a first cleanup stops no track (the stream reference is
already null, so no track operation is performed), raises nothing (it is
a total function), and leaves the state exactly as the first call left
it, with the stream reference null. -/
theorem cleanup_idempotent (s : RecorderState) :
    (cleanup (cleanup s).1).2 = [] ∧
    (cleanup (cleanup s).1).1 = (cleanup s).1 ∧
    (cleanup s).1.stream = none := by
  rcases s with ⟨mr, ch, st⟩
  cases st <;> simp [cleanup]

/-- Claim C8. Local recognition accumulates only results flagged final
(the accumulated transcript is unchanged by dropping every interim
result); an empty or interim-only result stream followed by the normal
end of listening rejects with the no-speech message rather than resolving
with a blank string; and any resolved transcript is the trimmed
accumulated transcript and is non-empty. -/
theorem local_recognition_finals_only (results : List SpeechRes) :
    accumulateFinal results = accumulateFinal (results.filter (fun r => r.isFinal)) ∧
    ((∀ r ∈ results, r.isFinal = false) →
       startListening results .ended = .rejected "No speech detected") ∧
    (∀ t, startListening results .ended = .resolved t →
       t = jsTrim (accumulateFinal results) ∧ t ≠ "") := by
  refine ⟨foldl_final_filter results "", ?_, ?_⟩
  · intro h
    have hacc : accumulateFinal results = "" := foldl_final_all_interim results "" h
    have htrim : jsTrim "" = "" := rfl
    simp [startListening, hacc, htrim]
  · intro t ht
    unfold startListening at ht
    by_cases htr : jsTrim (accumulateFinal results) = ""
    · simp [htr] at ht
    · simp only [ne_eq, htr, not_false_iff, if_true] at ht
      cases ht
      exact ⟨rfl, htr⟩

/-- Witness for claim C8: an interim-only stream rejects with the
no-speech message, and a stream with one final result resolves with the
trimmed transcript. -/
theorem local_recognition_finals_only_witness :
    startListening [⟨"hello", false⟩] .ended = .rejected "No speech detected" ∧
    accumulateFinal [⟨"hi ", false⟩, ⟨" there ", true⟩] =
      accumulateFinal ([⟨"hi ", false⟩, ⟨" there ", true⟩].filter (fun r => r.isFinal)) :=
  ⟨(local_recognition_finals_only [⟨"hello", false⟩]).2.1 (by decide),
   (local_recognition_finals_only [⟨"hi ", false⟩, ⟨" there ", true⟩]).1⟩

/-- Claim C9. On a transport-success response, a transcript is delivered
only when the text field is present and non-blank after trimming, and
then in trimmed non-empty form; an absent, empty or whitespace-only text
field yields the no-speech outcome, never a blank delivery. -/
theorem remote_blank_transcript_no_speech (text : Option String)
    (e : Option String) :
    (∀ t, handleTranscriptionResponse true text e = .delivered t →
       ∃ raw, text = some raw ∧ t = jsTrim raw ∧ t ≠ "") ∧
    (text = none → handleTranscriptionResponse true text e = .noSpeech) ∧
    (∀ raw, text = some raw → jsTrim raw = "" →
       handleTranscriptionResponse true text e = .noSpeech) := by
  refine ⟨?_, ?_, ?_⟩
  · intro t ht
    unfold handleTranscriptionResponse at ht
    cases text with
    | none => simp at ht
    | some raw =>
      by_cases h0 : raw = ""
      · simp [h0] at ht
      · by_cases htr : jsTrim raw = ""
        · simp [h0, htr] at ht
        · simp only [if_pos rfl, h0, htr, if_neg h0, if_neg htr] at ht
          cases ht
          refine ⟨raw, rfl, rfl, ?_⟩
          intro hz
          exact htr hz
  · intro h
    subst h
    rfl
  · intro raw hraw htr
    subst hraw
    unfold handleTranscriptionResponse
    by_cases h0 : raw = ""
    · simp [h0]
    · simp [h0, htr]

/-- Witness for claim C9: a transport-success response whose text is two
spaces is classified no-speech, not delivered. -/
theorem remote_blank_transcript_no_speech_witness :
    handleTranscriptionResponse true (some "  ") none = .noSpeech :=
  (remote_blank_transcript_no_speech (some "  ") none).2.2 "  " rfl (by decide)

/-- Claim C10. A zero-size input makes convertBlobToBase64 reject at once
with the empty-blob message, before the FileReader is ever invoked, and
the remote transport is never reached (the conversion rejection skips the
fetch); a non-zero input whose reader never completes is rejected by the
10000 ms timer with the conversion-timeout message. -/
theorem encoder_rejects_empty_and_times_out (size : Nat) (ev : ReaderEvent) :
    (size = 0 →
       convertBlobToBase64 size ev =
         ⟨.rejected "Cannot convert empty blob to base64", false⟩ ∧
       (transcriptionPipeline size ev).1 = false) ∧
    (size ≠ 0 →
       convertBlobToBase64 size .never =
         ⟨.rejected "Conversion timeout - please try again", true⟩) ∧
    encodeTimeoutMs = 10000 := by
  refine ⟨?_, ?_, rfl⟩
  · intro h
    subst h
    exact ⟨rfl, rfl⟩
  · intro h
    unfold convertBlobToBase64
    rw [if_neg h]

/-- Witness for claim C10: a zero-size blob rejects before the reader or
the transport is invoked, and a three-byte blob whose reader never
completes is rejected by the timeout. -/
theorem encoder_rejects_empty_and_times_out_witness :
    (convertBlobToBase64 0 (.loadend (some "data:audio/webm;base64,QUJD")) =
       ⟨.rejected "Cannot convert empty blob to base64", false⟩ ∧
     (transcriptionPipeline 0 (.loadend (some "data:audio/webm;base64,QUJD"))).1 = false) ∧
    convertBlobToBase64 3 .never =
      ⟨.rejected "Conversion timeout - please try again", true⟩ :=
  ⟨(encoder_rejects_empty_and_times_out 0 (.loadend (some "data:audio/webm;base64,QUJD"))).1 rfl,
   (encoder_rejects_empty_and_times_out 3 .never).2.1 (by decide)⟩
